import Mathlib

/-!
# Shallow embedding of the sqlAssister library

The Go library under verification is a thin convenience layer over
`database/sql`.  This file embeds, from the source:

* `utils/query_args_checker.go` : `QueryChecker`, `QueryCheckerWithArgs`;
* `utils/check_effected_rows_result.go` : `GetRowsAffected`;
* `sqlAssister.go` : the `Assister` struct, `New`, `UpdateSingleRow`,
  `SingleRowScanner`, `SingleRowScannerWithArgs`, `MultipleRowScanner`,
  `MultipleRowScannerWithArgs`, and the older `AssisterConfig.UpdateSingleRow`
  (the file concatenates several historical versions of the package);
* `struct_scanner.go` : `ScanStruct`;
* the ephemeral layer (`EphmrlUpdateSingleRow`, `EphmrlSingleRowScanner`,
  `EphmrlSingleRowScannerWithArgs`, `EphmrlMultipleRowScanner`,
  `EphmrlMultipleRowScannerWithArgs`).

The external database driver is modelled as an oracle (`Driver`): a record of
response functions for `Prepare`, `Exec`, `QueryRow`, `Query` and `Row.Scan`.
Every operation returns its Go result together with the list of driver calls
it issued (`List DbCall`), so that "does not touch the database" and
"never closes the handle" are statable.

A database handle (`*sql.DB`), a row cursor (`*sql.Row`) and a multi-row
cursor (`*sql.Rows`) are opaque to this library; they are modelled as `Nat`.
A Go `(*T, error)` pair is modelled as `Option T × Option Err`, where `none`
in the first component is the `nil` pointer.  A `sql.Result` is modelled by
the outcome of its `RowsAffected` method, `Except Err Int`.

Two Go variadic subtleties are embedded exactly as written in the source:

* every call site of the variadic `utils.QueryCheckerWithArgs(query, args)`
  passes the `[]any` slice `args` WITHOUT the `...` spread, so the checker
  receives a one-element argument list whose sole element is the slice;
  this is rendered as `[Val.list args]`;
* `EphmrlMultipleRowScannerWithArgs` calls `db.Query(query, args)` without
  the spread, passing the whole slice as a single query parameter.
-/

set_option autoImplicit false

/-- Error values of the library.  Constructors are named after the exact Go
error messages, recorded in `Err.message`; `rowsMismatch` carries the actual
and expected affected-row counts, `driver` is an arbitrary error surfaced by
the underlying database driver. -/
inductive Err where
  | missingBoth
  | missingQuery
  | missingArgs
  | rowsMismatch (actual expected : Int)
  | driver (code : Nat)
  deriving DecidableEq, Repr

/-- The Go message text carried by each error value (from
`utils/query_args_checker.go` and `utils/check_effected_rows_result.go`). -/
def Err.message : Err → String
  | .missingBoth => "both query / statement & args are not present"
  | .missingQuery => "no query / statement present"
  | .missingArgs => "no args present"
  | .rowsMismatch a e =>
      "number of rows affected does not match the expected number of rows affected: "
        ++ toString a ++ " / " ++ toString e
  | .driver c => "driver error " ++ toString c

/-- `true` for the errors whose message reports the query / statement as not
present (used to state "a missing-query error"). -/
def Err.namesMissingQuery : Err → Bool
  | .missingBoth => true
  | .missingQuery => true
  | _ => false

/-- `true` for the errors whose message reports the arguments as not present
(used to state "a missing-arguments error"). -/
def Err.namesMissingArgs : Err → Bool
  | .missingBoth => true
  | .missingArgs => true
  | _ => false

/-- `true` exactly for the validation errors produced by
`utils/query_args_checker.go`. -/
def Err.isValidation : Err → Bool
  | .missingBoth => true
  | .missingQuery => true
  | .missingArgs => true
  | _ => false

/-- A Go `any` value passed as a query argument.  `list` is a `[]any` slice
passed as a single value, which is what a variadic call without the `...`
spread produces. -/
inductive Val where
  | prim (n : Nat)
  | list (vs : List Val)

/-- A call issued to the underlying database driver.  The first field is the
handle the call is issued on. -/
inductive DbCall where
  | prepare (db : Nat) (q : String)
  | exec (db : Nat) (q : String) (args : List Val)
  | queryRow (db : Nat) (q : String) (args : List Val)
  | query (db : Nat) (q : String) (args : List Val)
  | close (db : Nat)

/-- The handle a driver call is issued on. -/
def DbCall.handle : DbCall → Nat
  | .prepare db _ => db
  | .exec db _ _ => db
  | .queryRow db _ _ => db
  | .query db _ _ => db
  | .close db => db

/-- `true` only for a `Close` call on the handle. -/
def DbCall.isClose : DbCall → Bool
  | .close _ => true
  | _ => false

/-- Oracle model of the external database driver: how each driver entry point
responds, as a function of handle, query text and arguments.  `exec` returns,
on success, the `sql.Result`, itself modelled by the outcome of its
`RowsAffected` method.  `queryRow` models `DB.QueryRow`, which in Go never
returns an error (errors are deferred to `Row.Scan`, modelled by `scan`). -/
structure Driver where
  prepare : Nat → String → Except Err Unit
  exec : Nat → String → List Val → Except Err (Except Err Int)
  queryRow : Nat → String → List Val → Nat
  query : Nat → String → List Val → Except Err Nat
  scan : Nat → Option Err

/-- A driver is well formed when the errors it produces are driver errors,
never one of the library's own validation errors.  This is a property of the
external world, used to state that a returned validation error can only have
come from the library's validation step. -/
def Driver.Wf (d : Driver) : Prop :=
  (∀ db q e, d.prepare db q = .error e → e.isValidation = false)
    ∧ (∀ db q args e, d.exec db q args = .error e → e.isValidation = false)
    ∧ (∀ db q args e, d.exec db q args = .ok (.error e) → e.isValidation = false)
    ∧ (∀ db q args e, d.query db q args = .error e → e.isValidation = false)

/-- `utils.QueryCheckerWithArgs` (utils/query_args_checker.go, lines 5-20):
a `switch` on the emptiness of the query text and of the received variadic
argument list. -/
def QueryCheckerWithArgs (query : String) (args : List Val) : Option Err :=
  if query.length = 0 ∧ args.length = 0 then some .missingBoth
  else if query.length = 0 ∧ 0 < args.length then some .missingQuery
  else if 0 < query.length ∧ args.length = 0 then some .missingArgs
  else none

/-- `utils.QueryChecker` (utils/query_args_checker.go, lines 22-28). -/
def QueryChecker (query : String) : Option Err :=
  if query.length = 0 then some .missingQuery else none

/-- `utils.GetRowsAffected` (utils/check_effected_rows_result.go):
`results.RowsAffected()` is the `Except Err Int` carried by the result; its
error is returned as is, a count different from the target yields the
mismatch error, a matching count succeeds (`none`).  The package-local
`getRowsAffected` of the older `AssisterConfig` section of sqlAssister.go is
textually identical and is embedded by this same definition. -/
def GetRowsAffected (results : Except Err Int) (targetNumRowsAffected : Int) : Option Err :=
  match results with
  | .error e => some e
  | .ok rowsAffected =>
      if rowsAffected ≠ targetNumRowsAffected then
        some (.rowsMismatch rowsAffected targetNumRowsAffected)
      else none

/-- The connection-bound executor (sqlAssister.go, lines 74-76): it holds one
externally owned database handle. -/
structure Assister where
  DB : Nat

/-- `New` (sqlAssister.go, lines 79-84). -/
def New (db : Nat) : Assister :=
  { DB := db }

/-- `Assister.UpdateSingleRow` (sqlAssister.go, lines 96-112): `Prepare`,
then `stmt.Exec(args...)`, then `utils.GetRowsAffected(results, 1)`, each
failure returned at once.  Note: no query validation is performed. -/
def Assister.UpdateSingleRow (ac : Assister) (d : Driver) (query : String) (args : List Val) :
    Option Err × List DbCall :=
  match d.prepare ac.DB query with
  | .error e => (some e, [.prepare ac.DB query])
  | .ok _ =>
      match d.exec ac.DB query args with
      | .error e => (some e, [.prepare ac.DB query, .exec ac.DB query args])
      | .ok results =>
          match GetRowsAffected results 1 with
          | some e => (some e, [.prepare ac.DB query, .exec ac.DB query args])
          | none => (none, [.prepare ac.DB query, .exec ac.DB query args])

/-- `Assister.SingleRowScanner` (sqlAssister.go, lines 131-139):
`utils.QueryChecker`, then `ac.DB.QueryRow(query)`. -/
def Assister.SingleRowScanner (ac : Assister) (d : Driver) (query : String) :
    (Option Nat × Option Err) × List DbCall :=
  match QueryChecker query with
  | some e => ((none, some e), [])
  | none => ((some (d.queryRow ac.DB query []), none), [.queryRow ac.DB query []])

/-- `Assister.SingleRowScannerWithArgs` (sqlAssister.go, lines 158-166):
`utils.QueryCheckerWithArgs(query, args)` — the slice is passed without the
`...` spread, hence `[Val.list args]` — then `ac.DB.QueryRow(query, args...)`. -/
def Assister.SingleRowScannerWithArgs (ac : Assister) (d : Driver) (query : String)
    (args : List Val) : (Option Nat × Option Err) × List DbCall :=
  match QueryCheckerWithArgs query [Val.list args] with
  | some e => ((none, some e), [])
  | none => ((some (d.queryRow ac.DB query args), none), [.queryRow ac.DB query args])

/-- `Assister.MultipleRowScanner` (sqlAssister.go, lines 189-201): it calls
`utils.QueryCheckerWithArgs(query)` — the with-args checker with an empty
variadic list — then `ac.DB.Query(query)`. -/
def Assister.MultipleRowScanner (ac : Assister) (d : Driver) (query : String) :
    (Option Nat × Option Err) × List DbCall :=
  match QueryCheckerWithArgs query [] with
  | some e => ((none, some e), [])
  | none =>
      match d.query ac.DB query [] with
      | .error e => ((none, some e), [.query ac.DB query []])
      | .ok rows => ((some rows, none), [.query ac.DB query []])

/-- `Assister.MultipleRowScannerWithArgs` (sqlAssister.go, lines 220-231):
`utils.QueryCheckerWithArgs(query, args)` (unspread slice), then
`ac.DB.Query(query, args...)`. -/
def Assister.MultipleRowScannerWithArgs (ac : Assister) (d : Driver) (query : String)
    (args : List Val) : (Option Nat × Option Err) × List DbCall :=
  match QueryCheckerWithArgs query [Val.list args] with
  | some e => ((none, some e), [])
  | none =>
      match d.query ac.DB query args with
      | .error e => ((none, some e), [.query ac.DB query args])
      | .ok rows => ((some rows, none), [.query ac.DB query args])

/-- `EphmrlUpdateSingleRow` (ephemeral layer, part_000 lines 27-44):
`utils.QueryCheckerWithArgs(statement, args)` (unspread slice), then
`db.Exec(statement, args...)`, then `utils.GetRowsAffected(results, 1)`;
on success the `*sql.Result` is returned. -/
def EphmrlUpdateSingleRow (d : Driver) (db : Nat) (statement : String) (args : List Val) :
    (Option (Except Err Int) × Option Err) × List DbCall :=
  match QueryCheckerWithArgs statement [Val.list args] with
  | some e => ((none, some e), [])
  | none =>
      match d.exec db statement args with
      | .error e => ((none, some e), [.exec db statement args])
      | .ok results =>
          match GetRowsAffected results 1 with
          | some e => ((none, some e), [.exec db statement args])
          | none => ((some results, none), [.exec db statement args])

/-- `EphmrlSingleRowScannerWithArgs` (part_000 lines 69-77):
`utils.QueryCheckerWithArgs(query, args)` (unspread slice), then
`db.QueryRow(query, args...)`. -/
def EphmrlSingleRowScannerWithArgs (d : Driver) (db : Nat) (query : String) (args : List Val) :
    (Option Nat × Option Err) × List DbCall :=
  match QueryCheckerWithArgs query [Val.list args] with
  | some e => ((none, some e), [])
  | none => ((some (d.queryRow db query args), none), [.queryRow db query args])

/-- `EphmrlSingleRowScanner` (part_000 lines 102-110): `utils.QueryChecker`,
then `db.QueryRow(query)`. -/
def EphmrlSingleRowScanner (d : Driver) (db : Nat) (query : String) :
    (Option Nat × Option Err) × List DbCall :=
  match QueryChecker query with
  | some e => ((none, some e), [])
  | none => ((some (d.queryRow db query []), none), [.queryRow db query []])

/-- `EphmrlMultipleRowScanner` (part_000 lines 139-150): `utils.QueryChecker`,
then `db.Query(query)`. -/
def EphmrlMultipleRowScanner (d : Driver) (db : Nat) (query : String) :
    (Option Nat × Option Err) × List DbCall :=
  match QueryChecker query with
  | some e => ((none, some e), [])
  | none =>
      match d.query db query [] with
      | .error e => ((none, some e), [.query db query []])
      | .ok rows => ((some rows, none), [.query db query []])

/-- `EphmrlMultipleRowScannerWithArgs` (part_000 lines 179-191):
`utils.QueryCheckerWithArgs(query, args)` (unspread slice), then
`db.Query(query, args)` — also WITHOUT the spread, so the whole slice is
passed to the driver as a single query parameter. -/
def EphmrlMultipleRowScannerWithArgs (d : Driver) (db : Nat) (query : String)
    (args : List Val) : (Option Nat × Option Err) × List DbCall :=
  match QueryCheckerWithArgs query [Val.list args] with
  | some e => ((none, some e), [])
  | none =>
      match d.query db query [Val.list args] with
      | .error e => ((none, some e), [.query db query [Val.list args]])
      | .ok rows => ((some rows, none), [.query db query [Val.list args]])

/-- Outcome of a call that may terminate normally, return an error, or crash
on a nil-pointer dereference (a Go runtime panic). -/
inductive Outcome where
  | ok
  | err (e : Err)
  | nilDeref
  deriving DecidableEq, Repr

/-- The older `AssisterConfig` executor (sqlAssister.go, concatenated second
section, lines 310-312). -/
structure AssisterConfig where
  DB : Nat

/-- `AssisterConfig.UpdateSingleRow` (sqlAssister.go, lines 345-359):
`Prepare`, then `results, err := stmt.Exec(params...)` whose `err` is NOT
checked — the next line overwrites it with `getRowsAffected(results, 1)`.
When `Exec` fails, `results` is the nil `sql.Result` interface, and
`getRowsAffected` calls `results.RowsAffected()` on it: a nil dereference. -/
def AssisterConfig.UpdateSingleRow (ac : AssisterConfig) (d : Driver) (statement : String)
    (params : List Val) : Outcome × List DbCall :=
  match d.prepare ac.DB statement with
  | .error e => (.err e, [.prepare ac.DB statement])
  | .ok _ =>
      match d.exec ac.DB statement params with
      | .error _ => (.nilDeref, [.prepare ac.DB statement, .exec ac.DB statement params])
      | .ok results =>
          match GetRowsAffected results 1 with
          | some e => (.err e, [.prepare ac.DB statement, .exec ac.DB statement params])
          | none => (.ok, [.prepare ac.DB statement, .exec ac.DB statement params])

/-- The loop body of `ScanStruct` (struct_scanner.go, lines 13-25), iterated
once per struct field: `row, err := ac.SingleRowScannerWithArgs("")` — the
empty query and no variadic arguments — `err` is only logged, then
`row.Scan(&z)` is called on `row`; when `row` is the nil `*sql.Row`, that
`Scan` dereferences a nil pointer.  On a scanned row, `Row.Scan`'s outcome is
the driver's `scan` response. -/
def scanStructLoop (ac : Assister) (d : Driver) : Nat → Outcome × List DbCall
  | 0 => (.ok, [])
  | n + 1 =>
      match ac.SingleRowScannerWithArgs d "" [] with
      | ((row, _err), calls) =>
          match row with
          | none => (.nilDeref, calls)
          | some r =>
              match d.scan r with
              | some e => (.err e, calls)
              | none =>
                  match scanStructLoop ac d n with
                  | (out, calls2) => (out, calls ++ calls2)

/-- `Assister.ScanStruct` (struct_scanner.go, lines 8-28), as a function of
the number of fields of the reflected struct argument. -/
def Assister.ScanStruct (ac : Assister) (d : Driver) (numOfFields : Nat) :
    Outcome × List DbCall :=
  scanStructLoop ac d numOfFields

/-- A driver on which every call succeeds: `Prepare` succeeds, `Exec` reports
one affected row, cursors are row 0. -/
def dOK : Driver where
  prepare := fun _ _ => .ok ()
  exec := fun _ _ _ => .ok (.ok 1)
  queryRow := fun _ _ _ => 0
  query := fun _ _ _ => .ok 0
  scan := fun _ => none

/-- A driver whose `Prepare` fails with a driver error. -/
def dPrepFail : Driver where
  prepare := fun _ _ => .error (.driver 1)
  exec := fun _ _ _ => .ok (.ok 1)
  queryRow := fun _ _ _ => 0
  query := fun _ _ _ => .ok 0
  scan := fun _ => none

/-- A driver whose `Exec` fails with a driver error. -/
def dExecFail : Driver where
  prepare := fun _ _ => .ok ()
  exec := fun _ _ _ => .error (.driver 7)
  queryRow := fun _ _ _ => 0
  query := fun _ _ _ => .ok 0
  scan := fun _ => none

/-- A driver whose `Exec` succeeds but reports zero affected rows. -/
def dZeroRows : Driver where
  prepare := fun _ _ => .ok ()
  exec := fun _ _ _ => .ok (.ok 0)
  queryRow := fun _ _ _ => 0
  query := fun _ _ _ => .ok 0
  scan := fun _ => none

/-- A driver on which `sql.Result.RowsAffected` itself fails. -/
def dRowsErr : Driver where
  prepare := fun _ _ => .ok ()
  exec := fun _ _ _ => .ok (.error (.driver 9))
  queryRow := fun _ _ _ => 0
  query := fun _ _ _ => .ok 0
  scan := fun _ => none

/-- A driver whose `Query` fails with a driver error. -/
def dQueryFail : Driver where
  prepare := fun _ _ => .ok ()
  exec := fun _ _ _ => .ok (.ok 1)
  queryRow := fun _ _ _ => 0
  query := fun _ _ _ => .error (.driver 5)
  scan := fun _ => none

/-- The trace of `scanStructLoop` is empty for every iteration count: the
inner scanner call fails validation before issuing any driver call, and the
loop crashes on its first iteration. -/
theorem scanStructLoop_trace (ac : Assister) (d : Driver) (n : Nat) :
    (scanStructLoop ac d n).2 = [] := by
  cases n with
  | zero => rfl
  | succ m => rfl

/-- The always-succeeding driver is well formed. -/
theorem dOK_wf : dOK.Wf := by
  refine ⟨fun db q e h => ?_, fun db q args e h => ?_, fun db q args e h => ?_,
    fun db q args e h => ?_⟩ <;> simp [dOK] at h

/-- C1: for every update-operation call in which the driver reports an
affected-row count `n` (prepare and execute succeed, `RowsAffected` returns
`n`), the call succeeds if and only if `n = 1`, and any other count yields
the mismatch error value carrying the actual count `n` and the expected
count `1` — an error return, not a panic or fatal exit.  Stated for all
three update entry points: `Assister.UpdateSingleRow`,
`EphmrlUpdateSingleRow` (whose validation passes under `hq`) and
`AssisterConfig.UpdateSingleRow`. -/
theorem c1_update_rows_affected (db : Nat) (d : Driver) (q : String) (args : List Val) (n : Int)
    (hq : q.length ≠ 0)
    (hp : d.prepare db q = .ok ())
    (he : d.exec db q args = .ok (.ok n)) :
    ((Assister.UpdateSingleRow (New db) d q args).1 = none ↔ n = 1)
      ∧ (n ≠ 1 → (Assister.UpdateSingleRow (New db) d q args).1 = some (.rowsMismatch n 1))
      ∧ ((EphmrlUpdateSingleRow d db q args).1.2 = none ↔ n = 1)
      ∧ (n ≠ 1 → (EphmrlUpdateSingleRow d db q args).1.2 = some (.rowsMismatch n 1))
      ∧ ((AssisterConfig.UpdateSingleRow ⟨db⟩ d q args).1 = .ok ↔ n = 1)
      ∧ (n ≠ 1 → (AssisterConfig.UpdateSingleRow ⟨db⟩ d q args).1 = .err (.rowsMismatch n 1)) := by
  by_cases hn : n = 1 <;>
    simp [Assister.UpdateSingleRow, EphmrlUpdateSingleRow, AssisterConfig.UpdateSingleRow,
      QueryCheckerWithArgs, GetRowsAffected, New, hp, he, hq, hn]

/-- C1 witness: a driver reporting one affected row makes the update succeed;
a driver reporting zero affected rows makes it return the mismatch error
carrying the counts 0 and 1. -/
theorem c1_update_rows_affected_witness :
    (Assister.UpdateSingleRow (New 0) dOK "u" []).1 = none
      ∧ (Assister.UpdateSingleRow (New 0) dZeroRows "u" []).1 = some (.rowsMismatch 0 1) := by
  exact ⟨(c1_update_rows_affected 0 dOK "u" [] 1 (by decide) rfl rfl).1.mpr rfl,
    (c1_update_rows_affected 0 dZeroRows "u" [] 0 (by decide) rfl rfl).2.1 (by decide)⟩

/-- C7: `QueryCheckerWithArgs` returns `nil` exactly when the query text and
the received argument list are both non-empty; on an empty query it returns
an error naming the missing query, and on an empty argument list an error
naming the missing arguments. -/
theorem c7_query_checker_with_args (query : String) (args : List Val) :
    (QueryCheckerWithArgs query args = none ↔ query.length ≠ 0 ∧ args ≠ [])
      ∧ (query.length = 0 →
          ∃ e, QueryCheckerWithArgs query args = some e ∧ e.namesMissingQuery = true)
      ∧ (args = [] →
          ∃ e, QueryCheckerWithArgs query args = some e ∧ e.namesMissingArgs = true) := by
  rcases args with _ | ⟨v, vs⟩ <;> by_cases hq : query.length = 0 <;>
    simp [QueryCheckerWithArgs, hq, Err.namesMissingQuery, Err.namesMissingArgs,
      Nat.pos_iff_ne_zero]

/-- C7 witness: an empty query with one argument yields the missing-query
error; a non-empty query with no arguments yields the missing-arguments
error. -/
theorem c7_query_checker_with_args_witness :
    (∃ e, QueryCheckerWithArgs "" [Val.prim 0] = some e ∧ e.namesMissingQuery = true)
      ∧ (∃ e, QueryCheckerWithArgs "q" [] = some e ∧ e.namesMissingArgs = true) := by
  exact ⟨(c7_query_checker_with_args "" [Val.prim 0]).2.1 rfl,
    (c7_query_checker_with_args "q" []).2.2 rfl⟩

/-- C9: for every struct argument with at least one field, the inner call
`SingleRowScannerWithArgs("")` made by `ScanStruct` on each field iteration
returns the nil row together with the missing-query error without touching
the driver; `ScanStruct` only logs that error and then calls `Scan` on the
nil row, so its outcome is a nil-pointer dereference. -/
theorem c9_scan_struct_nil_deref (ac : Assister) (d : Driver) (numOfFields : Nat)
    (h : 1 ≤ numOfFields) :
    (Assister.SingleRowScannerWithArgs ac d "" []).1 = (none, some .missingQuery)
      ∧ (Assister.SingleRowScannerWithArgs ac d "" []).2 = []
      ∧ (Assister.ScanStruct ac d numOfFields).1 = .nilDeref := by
  refine ⟨rfl, rfl, ?_⟩
  obtain ⟨m, rfl⟩ : ∃ m, numOfFields = m + 1 :=
    ⟨numOfFields - 1, (Nat.succ_pred_eq_of_pos h).symm⟩
  rfl

/-- C9 witness: on a one-field struct, `ScanStruct` dereferences a nil
pointer even on a driver on which every call succeeds. -/
theorem c9_scan_struct_nil_deref_witness :
    (Assister.ScanStruct ⟨0⟩ dOK 1).1 = .nilDeref :=
  (c9_scan_struct_nil_deref ⟨0⟩ dOK 1 (by decide)).2.2

/-- C3: the zero-argument rejection never happens.  For every non-empty
query, every driver and every handle, each of the five with-args operations
called with zero arguments passes validation — the empty argument slice is
forwarded to the variadic checker without the `...` spread, so the checker
sees a one-element list — and issues its driver call, returning no
missing-arguments error; yet the checker itself, applied to the actual empty
argument list, does reject it with the missing-arguments error. -/
theorem c3_with_args_zero_args_not_rejected (d : Driver) (db : Nat) (q : String)
    (hq : q.length ≠ 0) :
    QueryCheckerWithArgs q [] = some .missingArgs
      ∧ QueryCheckerWithArgs q [Val.list []] = none
      ∧ Assister.SingleRowScannerWithArgs (New db) d q []
          = ((some (d.queryRow db q []), none), [.queryRow db q []])
      ∧ (Assister.MultipleRowScannerWithArgs (New db) d q []).2 = [.query db q []]
      ∧ EphmrlSingleRowScannerWithArgs d db q []
          = ((some (d.queryRow db q []), none), [.queryRow db q []])
      ∧ (EphmrlMultipleRowScannerWithArgs d db q []).2 = [.query db q [Val.list []]]
      ∧ (EphmrlUpdateSingleRow d db q []).2 = [.exec db q []] := by
  have hnone : QueryCheckerWithArgs q [Val.list []] = none := by
    simp [QueryCheckerWithArgs, hq]
  refine ⟨?_, hnone, ?_, ?_, ?_, ?_, ?_⟩
  · simp [QueryCheckerWithArgs, hq, Nat.pos_iff_ne_zero]
  · simp [Assister.SingleRowScannerWithArgs, New, hnone]
  · rcases hr : d.query db q [] with e1 | rows <;>
      simp [Assister.MultipleRowScannerWithArgs, New, hnone, hr]
  · simp [EphmrlSingleRowScannerWithArgs, hnone]
  · rcases hr : d.query db q [Val.list []] with e1 | rows <;>
      simp [EphmrlMultipleRowScannerWithArgs, hnone, hr]
  · rcases hx : d.exec db q [] with e1 | res
    · simp [EphmrlUpdateSingleRow, hnone, hx]
    · rcases hg : GetRowsAffected res 1 with _ | e2 <;>
        simp [EphmrlUpdateSingleRow, hnone, hx, hg]

/-- C3 witness: the zero-argument call evaluated at a concrete non-empty
query on the always-succeeding driver: the checker would reject the empty
argument list, yet the operation passes validation, returns the cursor and
issues the query. -/
theorem c3_with_args_zero_args_not_rejected_witness :
    QueryCheckerWithArgs "SELECT 1" [] = some .missingArgs
      ∧ Assister.SingleRowScannerWithArgs (New 0) dOK "SELECT 1" []
          = ((some 0, none), [.queryRow 0 "SELECT 1" []])
      ∧ (EphmrlUpdateSingleRow dOK 0 "SELECT 1" []).2 = [.exec 0 "SELECT 1" []] := by
  obtain ⟨w1, -, w3, -, -, -, w7⟩ :=
    c3_with_args_zero_args_not_rejected dOK 0 "SELECT 1" (by decide)
  exact ⟨w1, w3, w7⟩

/-- C4: evaluation at the failing input.  The no-argument operation
`MultipleRowScanner`, on a non-empty query, returns the missing-arguments
error and never queries the driver — it calls the with-args checker with an
empty variadic list — while the other three no-argument operations do pass
validation and execute the query. -/
theorem c4_multiple_row_scanner_always_rejects :
    (Assister.MultipleRowScanner (New 0) dOK "SELECT 1").1 = (none, some .missingArgs)
      ∧ (Assister.MultipleRowScanner (New 0) dOK "SELECT 1").2 = []
      ∧ (Assister.SingleRowScanner (New 0) dOK "SELECT 1").1 = (some 0, none)
      ∧ (EphmrlSingleRowScanner dOK 0 "SELECT 1").1 = (some 0, none)
      ∧ (EphmrlMultipleRowScanner dOK 0 "SELECT 1").1 = (some 0, none) := by
  exact ⟨rfl, rfl, rfl, rfl, rfl⟩

/-- C2 counterexample: at the empty query string, the connection-bound
`Assister.UpdateSingleRow` does not return a missing-query error — on a
driver that accepts the empty statement it even succeeds — and it issues
`Prepare` and `Exec` calls, so the operation executes the query instead of
rejecting it. -/
theorem c2_empty_query_counterexample :
    (Assister.UpdateSingleRow (New 0) dOK "" []).1 = none
      ∧ (Assister.UpdateSingleRow (New 0) dOK "" []).2 = [.prepare 0 "", .exec 0 "" []] := by
  exact ⟨rfl, rfl⟩

/-- C2 amended: every operation of the library other than the
connection-bound `Assister.UpdateSingleRow` — which performs no query
validation at all — returns, on an empty query string, a validation error
whose message names the missing query, and issues no driver call.  The
precise error is `missingQuery`, except for `MultipleRowScanner`, which
reaches the with-args checker with an empty argument list and reports both
the query and the arguments as missing. -/
theorem c2_amended_empty_query (d : Driver) (db : Nat) (q : String) (args : List Val)
    (hq : q.length = 0) :
    Assister.SingleRowScanner (New db) d q = ((none, some .missingQuery), [])
      ∧ Assister.SingleRowScannerWithArgs (New db) d q args = ((none, some .missingQuery), [])
      ∧ Assister.MultipleRowScanner (New db) d q = ((none, some .missingBoth), [])
      ∧ Assister.MultipleRowScannerWithArgs (New db) d q args = ((none, some .missingQuery), [])
      ∧ EphmrlUpdateSingleRow d db q args = ((none, some .missingQuery), [])
      ∧ EphmrlSingleRowScanner d db q = ((none, some .missingQuery), [])
      ∧ EphmrlSingleRowScannerWithArgs d db q args = ((none, some .missingQuery), [])
      ∧ EphmrlMultipleRowScanner d db q = ((none, some .missingQuery), [])
      ∧ EphmrlMultipleRowScannerWithArgs d db q args = ((none, some .missingQuery), [])
      ∧ Err.namesMissingQuery .missingQuery = true
      ∧ Err.namesMissingQuery .missingBoth = true := by
  simp [Assister.SingleRowScanner, Assister.SingleRowScannerWithArgs,
    Assister.MultipleRowScanner, Assister.MultipleRowScannerWithArgs,
    EphmrlUpdateSingleRow, EphmrlSingleRowScanner, EphmrlSingleRowScannerWithArgs,
    EphmrlMultipleRowScanner, EphmrlMultipleRowScannerWithArgs,
    QueryChecker, QueryCheckerWithArgs, hq, Err.namesMissingQuery]

/-- C2 amended witness: the amended statement evaluated at the empty query on
the always-succeeding driver. -/
theorem c2_amended_empty_query_witness :
    Assister.SingleRowScanner (New 0) dOK "" = ((none, some .missingQuery), [])
      ∧ Assister.MultipleRowScanner (New 0) dOK "" = ((none, some .missingBoth), []) := by
  exact ⟨(c2_amended_empty_query dOK 0 "" [] rfl).1,
    (c2_amended_empty_query dOK 0 "" [] rfl).2.2.1⟩

/-- C5 counterexample: on a driver whose `Exec` fails,
`AssisterConfig.UpdateSingleRow` does not return the execute failure to the
caller as an error value: the `err` from `Exec` is overwritten unchecked by
the rows-affected check, which dereferences the nil result — the outcome is a
nil-pointer panic, not the execute error. -/
theorem c5_exec_error_discarded_counterexample :
    dExecFail.exec 0 "UPDATE t SET x = 1" [] = .error (.driver 7)
      ∧ (AssisterConfig.UpdateSingleRow ⟨0⟩ dExecFail "UPDATE t SET x = 1" []).1 = .nilDeref
      ∧ (AssisterConfig.UpdateSingleRow ⟨0⟩ dExecFail "UPDATE t SET x = 1" []).1
          ≠ .err (.driver 7) := by
  exact ⟨rfl, rfl, by decide⟩

/-- C5 amended: in the current API — the `Assister` operations and the
ephemeral layer — every internal failure is returned immediately to the
caller: a prepare failure, an execute failure, a failing `RowsAffected`, a
rows-affected mismatch, a validation failure and a query failure each become
the operation's returned error.  The exceptions are the older
`AssisterConfig.UpdateSingleRow` (and its part_001 ephemeral twin), which
overwrite a failing `Exec`'s error unchecked, and `ScanStruct`, which only
logs the inner scanner's error and continues. -/
theorem c5_amended_propagation (d : Driver) (db : Nat) (q : String) (args : List Val) (e : Err) :
    (d.prepare db q = .error e → (Assister.UpdateSingleRow (New db) d q args).1 = some e)
      ∧ (d.prepare db q = .ok () → d.exec db q args = .error e →
          (Assister.UpdateSingleRow (New db) d q args).1 = some e)
      ∧ (∀ res, d.prepare db q = .ok () → d.exec db q args = .ok res →
          GetRowsAffected res 1 = some e →
          (Assister.UpdateSingleRow (New db) d q args).1 = some e)
      ∧ (QueryChecker q = some e → Assister.SingleRowScanner (New db) d q = ((none, some e), []))
      ∧ (QueryCheckerWithArgs q [Val.list args] = some e →
          Assister.SingleRowScannerWithArgs (New db) d q args = ((none, some e), []))
      ∧ (QueryCheckerWithArgs q [] = some e →
          Assister.MultipleRowScanner (New db) d q = ((none, some e), []))
      ∧ (QueryCheckerWithArgs q [] = none → d.query db q [] = .error e →
          (Assister.MultipleRowScanner (New db) d q).1.2 = some e)
      ∧ (QueryCheckerWithArgs q [Val.list args] = some e →
          Assister.MultipleRowScannerWithArgs (New db) d q args = ((none, some e), []))
      ∧ (QueryCheckerWithArgs q [Val.list args] = none → d.query db q args = .error e →
          (Assister.MultipleRowScannerWithArgs (New db) d q args).1.2 = some e)
      ∧ (QueryCheckerWithArgs q [Val.list args] = some e →
          EphmrlUpdateSingleRow d db q args = ((none, some e), []))
      ∧ (QueryCheckerWithArgs q [Val.list args] = none → d.exec db q args = .error e →
          (EphmrlUpdateSingleRow d db q args).1.2 = some e)
      ∧ (∀ res, QueryCheckerWithArgs q [Val.list args] = none → d.exec db q args = .ok res →
          GetRowsAffected res 1 = some e → (EphmrlUpdateSingleRow d db q args).1.2 = some e)
      ∧ (QueryChecker q = some e → EphmrlSingleRowScanner d db q = ((none, some e), []))
      ∧ (QueryCheckerWithArgs q [Val.list args] = some e →
          EphmrlSingleRowScannerWithArgs d db q args = ((none, some e), []))
      ∧ (QueryChecker q = some e → EphmrlMultipleRowScanner d db q = ((none, some e), []))
      ∧ (QueryChecker q = none → d.query db q [] = .error e →
          (EphmrlMultipleRowScanner d db q).1.2 = some e)
      ∧ (QueryCheckerWithArgs q [Val.list args] = some e →
          EphmrlMultipleRowScannerWithArgs d db q args = ((none, some e), []))
      ∧ (QueryCheckerWithArgs q [Val.list args] = none →
          d.query db q [Val.list args] = .error e →
          (EphmrlMultipleRowScannerWithArgs d db q args).1.2 = some e) := by
  refine ⟨fun h1 => ?_, fun h1 h2 => ?_, fun res h1 h2 h3 => ?_, fun h1 => ?_, fun h1 => ?_,
    fun h1 => ?_, fun h1 h2 => ?_, fun h1 => ?_, fun h1 h2 => ?_, fun h1 => ?_,
    fun h1 h2 => ?_, fun res h1 h2 h3 => ?_, fun h1 => ?_, fun h1 => ?_, fun h1 => ?_,
    fun h1 h2 => ?_, fun h1 => ?_, fun h1 h2 => ?_⟩ <;>
    simp [Assister.UpdateSingleRow, Assister.SingleRowScanner,
      Assister.SingleRowScannerWithArgs, Assister.MultipleRowScanner,
      Assister.MultipleRowScannerWithArgs, EphmrlUpdateSingleRow, EphmrlSingleRowScanner,
      EphmrlSingleRowScannerWithArgs, EphmrlMultipleRowScanner,
      EphmrlMultipleRowScannerWithArgs, New, *]

/-- C5 amended witness: the propagation clauses exercised on concrete
drivers — a failing prepare, a failing execute, a failing `RowsAffected`, a
failing query (in both the connection-bound and the ephemeral scan-many
with-args operations), and a validation failure each surface as the returned
error. -/
theorem c5_amended_propagation_witness :
    (Assister.UpdateSingleRow (New 0) dPrepFail "u" []).1 = some (.driver 1)
      ∧ (Assister.UpdateSingleRow (New 0) dExecFail "u" []).1 = some (.driver 7)
      ∧ (Assister.UpdateSingleRow (New 0) dRowsErr "u" []).1 = some (.driver 9)
      ∧ (Assister.MultipleRowScannerWithArgs (New 0) dQueryFail "s" [Val.prim 2]).1.2
          = some (.driver 5)
      ∧ EphmrlSingleRowScannerWithArgs dOK 1 "" [] = ((none, some .missingQuery), [])
      ∧ (EphmrlMultipleRowScannerWithArgs dQueryFail 0 "s" [Val.prim 2]).1.2
          = some (.driver 5) := by
  obtain ⟨w1, -, -, -, -, -, -, -, -, -, -, -, -, -, -, -, -, -⟩ :=
    c5_amended_propagation dPrepFail 0 "u" [] (.driver 1)
  obtain ⟨-, w2, -, -, -, -, -, -, -, -, -, -, -, -, -, -, -, -⟩ :=
    c5_amended_propagation dExecFail 0 "u" [] (.driver 7)
  obtain ⟨-, -, w3, -, -, -, -, -, -, -, -, -, -, -, -, -, -, -⟩ :=
    c5_amended_propagation dRowsErr 0 "u" [] (.driver 9)
  obtain ⟨-, -, -, -, -, -, -, -, w9, -, -, -, -, -, -, -, -, w18⟩ :=
    c5_amended_propagation dQueryFail 0 "s" [Val.prim 2] (.driver 5)
  obtain ⟨-, -, -, -, -, -, -, -, -, -, -, -, -, w14, -, -, -, -⟩ :=
    c5_amended_propagation dOK 1 "" [] .missingQuery
  exact ⟨w1 rfl, w2 rfl rfl, w3 (.error (.driver 9)) rfl rfl rfl, w9 rfl rfl, w14 rfl,
    w18 rfl rfl⟩

/-- C6 counterexample: called with the same empty query, the same argument
list and the same handle, the ephemeral update validates and returns the
missing-query error without touching the driver, while the connection-bound
update performs no validation, issues `Prepare` and `Exec`, and succeeds —
the two variants do not have the same contract. -/
theorem c6_update_variants_differ_counterexample :
    (Assister.UpdateSingleRow (New 0) dOK "" [Val.prim 1]).1 = none
      ∧ (Assister.UpdateSingleRow (New 0) dOK "" [Val.prim 1]).2
          = [.prepare 0 "", .exec 0 "" [Val.prim 1]]
      ∧ (EphmrlUpdateSingleRow dOK 0 "" [Val.prim 1]).1.2 = some .missingQuery
      ∧ (EphmrlUpdateSingleRow dOK 0 "" [Val.prim 1]).2 = []
      ∧ (Assister.UpdateSingleRow (New 0) dOK "" [Val.prim 1]).1
          ≠ (EphmrlUpdateSingleRow dOK 0 "" [Val.prim 1]).1.2 := by
  refine ⟨rfl, rfl, rfl, rfl, ?_⟩
  intro h
  exact Option.noConfusion h

/-- C6 amended: only the two scan-one pairs have identical contracts: on the
same driver, handle, query and arguments, the connection-bound and the
ephemeral scan-one operations perform the same validation, issue the same
driver calls and return the same result.  The update pair differs (the
connection-bound update performs no validation, prepares before executing,
and returns no result value), the no-argument scan-many pair differs in
validation (the connection-bound one demands arguments), and the with-args
scan-many pair differs in how the arguments reach the driver (the ephemeral
one forwards the slice as a single parameter). -/
theorem c6_amended_scan_one_equiv (d : Driver) (db : Nat) (q : String) (args : List Val) :
    Assister.SingleRowScanner (New db) d q = EphmrlSingleRowScanner d db q
      ∧ Assister.SingleRowScannerWithArgs (New db) d q args
          = EphmrlSingleRowScannerWithArgs d db q args := by
  exact ⟨rfl, rfl⟩

/-- C8: the connection-bound executor never touches its stored handle other
than to read it.  `New db` stores exactly `db`; every driver call any
operation issues targets that stored handle and none of them is a `Close`;
the executor never constructs or stores a different handle.  (In the Go
source all these methods take the receiver by value and never assign to
`ac.DB`, so the caller's stored field is immutable by construction; the
embedded content is the `New` equation and the shape of the issued calls.) -/
theorem c8_handle_frame (db : Nat) (d : Driver) (q : String) (args : List Val) (n : Nat) :
    (New db).DB = db
      ∧ (∀ c ∈ (Assister.UpdateSingleRow (New db) d q args).2,
          c.isClose = false ∧ c.handle = db)
      ∧ (∀ c ∈ (Assister.SingleRowScanner (New db) d q).2,
          c.isClose = false ∧ c.handle = db)
      ∧ (∀ c ∈ (Assister.SingleRowScannerWithArgs (New db) d q args).2,
          c.isClose = false ∧ c.handle = db)
      ∧ (∀ c ∈ (Assister.MultipleRowScanner (New db) d q).2,
          c.isClose = false ∧ c.handle = db)
      ∧ (∀ c ∈ (Assister.MultipleRowScannerWithArgs (New db) d q args).2,
          c.isClose = false ∧ c.handle = db)
      ∧ (∀ c ∈ (Assister.ScanStruct (New db) d n).2,
          c.isClose = false ∧ c.handle = db) := by
  refine ⟨rfl, ?_, ?_, ?_, ?_, ?_, ?_⟩ <;> intro c hc
  · rcases hp : d.prepare db q with e0 | u
    · simp [Assister.UpdateSingleRow, New, hp] at hc
      subst hc
      exact ⟨rfl, rfl⟩
    · rcases hx : d.exec db q args with e1 | res
      · simp [Assister.UpdateSingleRow, New, hp, hx] at hc
        rcases hc with rfl | rfl
        · exact ⟨rfl, rfl⟩
        · exact ⟨rfl, rfl⟩
      · rcases hg : GetRowsAffected res 1 with _ | e2 <;>
          simp [Assister.UpdateSingleRow, New, hp, hx, hg] at hc <;>
          rcases hc with rfl | rfl
        · exact ⟨rfl, rfl⟩
        · exact ⟨rfl, rfl⟩
        · exact ⟨rfl, rfl⟩
        · exact ⟨rfl, rfl⟩
  · rcases hq0 : QueryChecker q with _ | e0
    · simp [Assister.SingleRowScanner, New, hq0] at hc
      subst hc
      exact ⟨rfl, rfl⟩
    · simp [Assister.SingleRowScanner, New, hq0] at hc
  · rcases hq0 : QueryCheckerWithArgs q [Val.list args] with _ | e0
    · simp [Assister.SingleRowScannerWithArgs, New, hq0] at hc
      subst hc
      exact ⟨rfl, rfl⟩
    · simp [Assister.SingleRowScannerWithArgs, New, hq0] at hc
  · rcases hq0 : QueryCheckerWithArgs q [] with _ | e0
    · rcases hr : d.query db q [] with e1 | rows <;>
        simp [Assister.MultipleRowScanner, New, hq0, hr] at hc <;>
        subst hc <;> exact ⟨rfl, rfl⟩
    · simp [Assister.MultipleRowScanner, New, hq0] at hc
  · rcases hq0 : QueryCheckerWithArgs q [Val.list args] with _ | e0
    · rcases hr : d.query db q args with e1 | rows <;>
        simp [Assister.MultipleRowScannerWithArgs, New, hq0, hr] at hc <;>
        subst hc <;> exact ⟨rfl, rfl⟩
    · simp [Assister.MultipleRowScannerWithArgs, New, hq0] at hc
  · rw [Assister.ScanStruct, scanStructLoop_trace] at hc
    exact absurd hc (List.not_mem_nil c)

/-- C8 witness: the `Prepare` call issued by an update on handle 0 is not a
`Close` and targets handle 0. -/
theorem c8_handle_frame_witness :
    DbCall.isClose (.prepare 0 "u") = false ∧ DbCall.handle (.prepare 0 "u") = 0 :=
  (c8_handle_frame 0 dOK "u" [] 0).2.1 (.prepare 0 "u") (List.mem_cons_self _ _)

/-- C10: on a well-formed driver (one whose own errors are never the
library's validation errors), whenever an operation returns a validation
error — a missing query or missing arguments — its trace of driver calls is
empty: no prepare, execute, or query call was issued, so the database and
the connection are untouched on that error path.  Stated for all five
connection-bound operations and all five ephemeral operations. -/
theorem c10_validation_error_before_db (d : Driver) (hwf : d.Wf) (db : Nat) (q : String)
    (args : List Val) (e : Err) (he : e.isValidation = true) :
    ((Assister.UpdateSingleRow (New db) d q args).1 = some e →
        (Assister.UpdateSingleRow (New db) d q args).2 = [])
      ∧ ((Assister.SingleRowScanner (New db) d q).1.2 = some e →
        (Assister.SingleRowScanner (New db) d q).2 = [])
      ∧ ((Assister.SingleRowScannerWithArgs (New db) d q args).1.2 = some e →
        (Assister.SingleRowScannerWithArgs (New db) d q args).2 = [])
      ∧ ((Assister.MultipleRowScanner (New db) d q).1.2 = some e →
        (Assister.MultipleRowScanner (New db) d q).2 = [])
      ∧ ((Assister.MultipleRowScannerWithArgs (New db) d q args).1.2 = some e →
        (Assister.MultipleRowScannerWithArgs (New db) d q args).2 = [])
      ∧ ((EphmrlUpdateSingleRow d db q args).1.2 = some e →
        (EphmrlUpdateSingleRow d db q args).2 = [])
      ∧ ((EphmrlSingleRowScanner d db q).1.2 = some e →
        (EphmrlSingleRowScanner d db q).2 = [])
      ∧ ((EphmrlSingleRowScannerWithArgs d db q args).1.2 = some e →
        (EphmrlSingleRowScannerWithArgs d db q args).2 = [])
      ∧ ((EphmrlMultipleRowScanner d db q).1.2 = some e →
        (EphmrlMultipleRowScanner d db q).2 = [])
      ∧ ((EphmrlMultipleRowScannerWithArgs d db q args).1.2 = some e →
        (EphmrlMultipleRowScannerWithArgs d db q args).2 = []) := by
  obtain ⟨hwp, hwe, hwr, hwq⟩ := hwf
  refine ⟨?_, ?_, ?_, ?_, ?_, ?_, ?_, ?_, ?_, ?_⟩ <;> intro h
  · rcases hp : d.prepare db q with e0 | u
    · simp [Assister.UpdateSingleRow, New, hp] at h
      have := hwp db q e0 hp
      simp_all
    · rcases hx : d.exec db q args with e1 | res
      · simp [Assister.UpdateSingleRow, New, hp, hx] at h
        have := hwe db q args e1 hx
        simp_all
      · rcases res with e2 | cnt
        · simp [Assister.UpdateSingleRow, New, hp, hx, GetRowsAffected] at h
          have := hwr db q args e2 hx
          simp_all
        · by_cases hcnt : cnt = 1
          · simp [Assister.UpdateSingleRow, New, hp, hx, GetRowsAffected, hcnt] at h
          · simp [Assister.UpdateSingleRow, New, hp, hx, GetRowsAffected, hcnt] at h
            subst h
            simp [Err.isValidation] at he
  · rcases hq0 : QueryChecker q with _ | e0
    · simp [Assister.SingleRowScanner, New, hq0] at h
    · simp [Assister.SingleRowScanner, New, hq0]
  · rcases hq0 : QueryCheckerWithArgs q [Val.list args] with _ | e0
    · simp [Assister.SingleRowScannerWithArgs, New, hq0] at h
    · simp [Assister.SingleRowScannerWithArgs, New, hq0]
  · rcases hq0 : QueryCheckerWithArgs q [] with _ | e0
    · rcases hr : d.query db q [] with e1 | rows
      · simp [Assister.MultipleRowScanner, New, hq0, hr] at h
        have := hwq db q [] e1 hr
        simp_all
      · simp [Assister.MultipleRowScanner, New, hq0, hr] at h
    · simp [Assister.MultipleRowScanner, New, hq0]
  · rcases hq0 : QueryCheckerWithArgs q [Val.list args] with _ | e0
    · rcases hr : d.query db q args with e1 | rows
      · simp [Assister.MultipleRowScannerWithArgs, New, hq0, hr] at h
        have := hwq db q args e1 hr
        simp_all
      · simp [Assister.MultipleRowScannerWithArgs, New, hq0, hr] at h
    · simp [Assister.MultipleRowScannerWithArgs, New, hq0]
  · rcases hq0 : QueryCheckerWithArgs q [Val.list args] with _ | e0
    · rcases hx : d.exec db q args with e1 | res
      · simp [EphmrlUpdateSingleRow, hq0, hx] at h
        have := hwe db q args e1 hx
        simp_all
      · rcases res with e2 | cnt
        · simp [EphmrlUpdateSingleRow, hq0, hx, GetRowsAffected] at h
          have := hwr db q args e2 hx
          simp_all
        · by_cases hcnt : cnt = 1
          · simp [EphmrlUpdateSingleRow, hq0, hx, GetRowsAffected, hcnt] at h
          · simp [EphmrlUpdateSingleRow, hq0, hx, GetRowsAffected, hcnt] at h
            subst h
            simp [Err.isValidation] at he
    · simp [EphmrlUpdateSingleRow, hq0]
  · rcases hq0 : QueryChecker q with _ | e0
    · simp [EphmrlSingleRowScanner, hq0] at h
    · simp [EphmrlSingleRowScanner, hq0]
  · rcases hq0 : QueryCheckerWithArgs q [Val.list args] with _ | e0
    · simp [EphmrlSingleRowScannerWithArgs, hq0] at h
    · simp [EphmrlSingleRowScannerWithArgs, hq0]
  · rcases hq0 : QueryChecker q with _ | e0
    · rcases hr : d.query db q [] with e1 | rows
      · simp [EphmrlMultipleRowScanner, hq0, hr] at h
        have := hwq db q [] e1 hr
        simp_all
      · simp [EphmrlMultipleRowScanner, hq0, hr] at h
    · simp [EphmrlMultipleRowScanner, hq0]
  · rcases hq0 : QueryCheckerWithArgs q [Val.list args] with _ | e0
    · rcases hr : d.query db q [Val.list args] with e1 | rows
      · simp [EphmrlMultipleRowScannerWithArgs, hq0, hr] at h
        have := hwq db q [Val.list args] e1 hr
        simp_all
      · simp [EphmrlMultipleRowScannerWithArgs, hq0, hr] at h
    · simp [EphmrlMultipleRowScannerWithArgs, hq0]

/-- C10 witness: the ephemeral with-args scanner, returning the missing-query
validation error on the well-formed always-succeeding driver, issued no
driver call. -/
theorem c10_validation_error_before_db_witness :
    (EphmrlSingleRowScannerWithArgs dOK 0 "" [Val.prim 3]).2 = [] :=
  (c10_validation_error_before_db dOK dOK_wf 0 "" [Val.prim 3] .missingQuery
    rfl).2.2.2.2.2.2.2.1 rfl
